import Mathlib

/-!
Verification of the nostr-inbox repository against its specification.

The definitions below are a shallow embedding of the JavaScript source:
  - `KINDS`, `buildFilters`, `classifyEvent`  from src/filters.cjs
    (the repository file contains two revisions of the module; the embedding
    follows the later revision, whose curated DVM kind lists and explicit
    `dvmKinds` handling are the ones exercised and required by the
    repository's own test suite);
  - `handleEvent` and the inbox state from src/inbox.cjs (`createInbox`);
  - `flushBatch`, `send`, `verifySignature` from src/webhooks.cjs.

JavaScript numbers holding event kinds and timestamps are modelled as `Int`;
JavaScript `Set` insertion order is modelled as a duplicate-free `List`;
JavaScript truthiness of optional string/number parameters is modelled
explicitly (`none` and the falsy values `""` / `0` are spelled out).
The HMAC-SHA256 primitive from node's `crypto` module is an external
collaborator, so functions that use it take the hex-digest function as an
explicit parameter.
-/

/-- A raw nostr event as delivered by a relay (src/filters.cjs, src/inbox.cjs). -/
structure RawEvent where
  id : String
  pubkey : String
  kind : Int
  created_at : Int
  content : String
  tags : List (List String)
deriving DecidableEq

/-- Result of `classifyEvent`: notification type, priority, and the optional
`dvmKind` extra attribute. -/
structure Classification where
  type : String
  priority : String
  dvmKind : Option Int
deriving DecidableEq

/-- The `KINDS` constant object of src/filters.cjs. -/
structure Kinds where
  TEXT_NOTE : Int
  DM_ENCRYPTED : Int
  REACTION : Int
  DVM_REQUEST_BASE : Int
  DVM_RESULT_BASE : Int
  DVM_FEEDBACK : Int
  ZAP_RECEIPT : Int
  ZAP_REQUEST : Int
  LABEL : Int
  GIFT_WRAP : Int
  SEAL : Int
  AGENT_SERVICE : Int
  TASK : Int
  BID : Int
  DELIVERY : Int
  RESOLUTION : Int
  COMMENT : Int

/-- `KINDS` from src/filters.cjs. -/
def KINDS : Kinds :=
  ⟨1, 4, 7, 5000, 6000, 7000, 9735, 9734, 1985, 1059, 13, 38990, 30950, 950, 951, 952, 1111⟩

/-- `classifyEvent(event, myPubkey)` from src/filters.cjs: ordered rules,
first match wins, falling through to `unknown`/`low`. -/
def classifyEvent (event : RawEvent) (myPubkey : String) : Classification :=
  let kind := event.kind
  if kind = KINDS.DM_ENCRYPTED ∨ kind = KINDS.GIFT_WRAP then
    ⟨"dm", "high", none⟩
  else if 5000 ≤ kind ∧ kind < 6000 then
    ⟨"dvm_request", "high", some kind⟩
  else if 6000 ≤ kind ∧ kind < 7000 then
    ⟨"dvm_result", "medium", some (kind - 1000)⟩
  else if kind = KINDS.DVM_FEEDBACK then
    ⟨"dvm_feedback", "low", none⟩
  else if kind = KINDS.ZAP_RECEIPT then
    ⟨"zap", "medium", none⟩
  else if kind = KINDS.LABEL then
    if event.tags.any (fun t => t.get? 0 == some "p" && t.get? 1 == some myPubkey) then
      ⟨"trust", "medium", none⟩
    else
      ⟨"trust_network", "low", none⟩
  else if kind = KINDS.BID then ⟨"marketplace_bid", "high", none⟩
  else if kind = KINDS.DELIVERY then ⟨"marketplace_delivery", "high", none⟩
  else if kind = KINDS.RESOLUTION then ⟨"marketplace_resolution", "high", none⟩
  else if kind = KINDS.REACTION then ⟨"reaction", "low", none⟩
  else if kind = KINDS.TEXT_NOTE ∨ kind = KINDS.COMMENT then
    ⟨"mention", "medium", none⟩
  else ⟨"unknown", "low", none⟩

/-- Channel configuration destructured at the top of `buildFilters`
(src/filters.cjs); every toggle defaults to enabled, and `dvmKinds` is the
optional explicit list of DVM request kinds read from `channels.dvmKinds`. -/
structure Channels where
  mentions : Bool := true
  dms : Bool := true
  dvmRequests : Bool := true
  dvmResults : Bool := true
  zaps : Bool := true
  reactions : Bool := true
  trust : Bool := true
  marketplace : Bool := true
  dvmKinds : Option (List Int) := none
deriving DecidableEq

/-- One subscription filter pushed by `buildFilters`: the `kinds` array, the
`#p` target-identity constraint, the optional `#L` label constraint, and the
optional `since` lower time bound. -/
structure QueryFilter where
  kinds : List Int
  p : List String
  L : Option (List String)
  since : Option Int
deriving DecidableEq

/-- `const sinceObj = since ? { since } : {}` (src/filters.cjs):
the `since` field is attached only when the argument is truthy, so the
number 0 — like `null` — yields no `since` field. -/
def sinceField (since : Option Int) : Option Int :=
  match since with
  | some t => if t = 0 then none else some t
  | none => none

/-- The `commonDvmKinds` array used by the DVM-requests channel when no
explicit kind list is supplied (src/filters.cjs). -/
def commonDvmKinds : List Int :=
  [5000, 5001, 5002, 5003, 5004, 5005,
   5050,
   5100,
   5200,
   5250,
   5300,
   5301, 5302,
   5400, 5401,
   5500, 5501,
   5900, 5901, 5902, 5903, 5904, 5905]

/-- The `commonResultKinds` array used by the DVM-results channel when no
explicit kind list is supplied (src/filters.cjs). -/
def commonResultKinds : List Int :=
  [6000, 6001, 6002, 6003, 6004, 6005,
   6050, 6100, 6200, 6250, 6300, 6301, 6302,
   6400, 6401, 6500, 6501,
   6900, 6901, 6902, 6903, 6904, 6905]

/-- `buildFilters(pubkey, channels, since)` from src/filters.cjs: each
enabled channel appends its filters in source order (mentions, dms,
dvmRequests, dvmResults, zaps, reactions, trust, marketplace). -/
def buildFilters (pubkey : String) (channels : Channels) (since : Option Int) :
    List QueryFilter :=
  let s := sinceField since
  (if channels.mentions then
    [⟨[KINDS.TEXT_NOTE, KINDS.COMMENT], [pubkey], none, s⟩]
  else []) ++
  (if channels.dms then
    [⟨[KINDS.DM_ENCRYPTED], [pubkey], none, s⟩,
     ⟨[KINDS.GIFT_WRAP], [pubkey], none, s⟩]
  else []) ++
  (if channels.dvmRequests then
    match channels.dvmKinds with
    | some dvmKinds => [⟨dvmKinds, [pubkey], none, s⟩]
    | none => [⟨commonDvmKinds, [pubkey], none, s⟩]
  else []) ++
  (if channels.dvmResults then
    match channels.dvmKinds with
    | some dvmKinds => [⟨dvmKinds.map (fun k => k + 1000), [pubkey], none, s⟩]
    | none => [⟨commonResultKinds, [pubkey], none, s⟩]
  else []) ++
  (if channels.zaps then [⟨[KINDS.ZAP_RECEIPT], [pubkey], none, s⟩] else []) ++
  (if channels.reactions then [⟨[KINDS.REACTION], [pubkey], none, s⟩] else []) ++
  (if channels.trust then [⟨[KINDS.LABEL], [pubkey], some ["ai.wot"], s⟩] else []) ++
  (if channels.marketplace then
    [⟨[KINDS.BID, KINDS.DELIVERY, KINDS.RESOLUTION], [pubkey], none, s⟩]
  else [])

/-- Channel configuration with every toggle disabled. -/
def allDisabled : Channels :=
  ⟨false, false, false, false, false, false, false, false, none⟩

/-- Channel configuration enabling only the mentions channel. -/
def mentionsOnly : Channels :=
  ⟨true, false, false, false, false, false, false, false, none⟩

/-- A published notification as constructed in `handleEvent`
(src/inbox.cjs): the classification is spread into the object, so `type`,
`priority` and the optional `dvmKind` come from `classifyEvent`. -/
structure Notification where
  id : String
  type : String
  priority : String
  fromPubkey : String
  content : String
  kind : Int
  tags : List (List String)
  createdAt : Int
  dvmKind : Option Int
deriving DecidableEq

/-- Mutable state owned by a `createInbox` instance (src/inbox.cjs): the
`seen` dedup window (a JavaScript `Set`, i.e. an insertion-ordered
duplicate-free collection) and the `latestTimestamp` watermark. -/
structure InboxState where
  seen : List String
  latestTimestamp : Int
deriving DecidableEq

/-- The dedup-window update of `handleEvent` (src/inbox.cjs):
`seen.add(event.id)` followed by the amortized eviction
`if (seen.size > 10000) delete the first 5000 ids in insertion order`. -/
def recordSeen (seen : List String) (id : String) : List String :=
  let s := if id ∈ seen then seen else seen ++ [id]
  if s.length > 10000 then s.drop 5000 else s

/-- Synchronous topic fan-out of the three `emitter.emit` calls in
`handleEvent`. A subscriber callback returning `false` models a thrown
exception: Node's `EventEmitter.emit` runs listeners synchronously, so the
exception propagates, skipping the remaining listeners, the remaining
topics, and the `onEvent` callback. Returns the (topic, notification)
publications that completed and whether no exception escaped. -/
def emitSeq (subs : String → List (Notification → Bool)) (n : Notification) :
    List String → List (String × Notification) × Bool
  | [] => ([], true)
  | t :: ts =>
    if (subs t).all (fun h => h n) then
      let r := emitSeq subs n ts
      ((t, n) :: r.1, r.2)
    else ([], false)

/-- Observable outcome of one `handleEvent` call: the updated inbox state,
the completed (topic, notification) publications, whether the user-supplied
`onEvent` callback was invoked, and whether the call returned normally
(`ok = false` models an exception escaping from a subscriber). -/
structure HandleResult where
  state : InboxState
  published : List (String × Notification)
  onEventInvoked : Bool
  ok : Bool
deriving DecidableEq

/-- `handleEvent(event)` from src/inbox.cjs. In source order: the dedup
drop, the dedup-window record + eviction, the watermark update, the
classification, the notification construction, the `notification` /
per-type / conditional `urgent` emissions, and the protected `onEvent`
callback (its exception is swallowed by `try { onEvent(n) } catch (e) {}`). -/
def handleEvent (dedup : Bool) (pubkey : String)
    (subs : String → List (Notification → Bool)) (onEvent : Option (Notification → Bool))
    (st : InboxState) (event : RawEvent) : HandleResult :=
  if dedup = true ∧ event.id ∈ st.seen then ⟨st, [], false, true⟩
  else
    let seen' := if dedup then recordSeen st.seen event.id else st.seen
    let latest' := if event.created_at > st.latestTimestamp then event.created_at
      else st.latestTimestamp
    let c := classifyEvent event pubkey
    let n : Notification :=
      ⟨event.id, c.type, c.priority, event.pubkey, event.content, event.kind,
       event.tags, event.created_at * 1000, c.dvmKind⟩
    let topics := ["notification", c.type] ++ (if c.priority = "high" then ["urgent"] else [])
    let r := emitSeq subs n topics
    if r.2 then ⟨⟨seen', latest'⟩, r.1, onEvent.isSome, true⟩
    else ⟨⟨seen', latest'⟩, r.1, false, false⟩

/-- Folding `handleEvent` (with no bus subscribers and no callback) over a
stream of raw events, keeping the inbox state. -/
def runInbox (dedup : Bool) (pubkey : String) (st : InboxState)
    (events : List RawEvent) : InboxState :=
  events.foldl (fun s e => (handleEvent dedup pubkey (fun _ => []) none s e).state) st

/-- One step of the dedup-window evolution performed by `handleEvent` with
dedup enabled: an already-seen id leaves the window unchanged (the event is
dropped), a fresh id is recorded. -/
def seenStep (s : List String) (id : String) : List String :=
  if id ∈ s then s else recordSeen s id

/-- Concrete pairwise-distinct event ids for exercising the eviction bound:
the id of index n is the string of n copies of the letter a. -/
def mkId (n : Nat) : String := String.mk (List.replicate n 'a')

/-- A concrete raw event with id `mkId n`. -/
def mkEv (n : Nat) : RawEvent := ⟨mkId n, "s", 1, 0, "", []⟩

/-- 10001 concrete raw events with pairwise-distinct ids. -/
def evsW : List RawEvent := (List.range 10001).map mkEv

/-- `sign(payload)` from src/webhooks.cjs: `null` when no secret is
configured (JavaScript `!secret` is also true for the empty string),
otherwise the hex HMAC-SHA256 digest of the payload under the secret. The
digest primitive comes from node's `crypto` module, an external
collaborator, so it is passed in as `hmacHex secret payload`. -/
def sign (hmacHex : String → String → String) (secret : Option String)
    (payload : String) : Option String :=
  match secret with
  | none => none
  | some s => if s = "" then none else some (hmacHex s payload)

/-- `verifySignature(payload, signature, secret)` from src/webhooks.cjs:
false when signature or secret is absent or empty (JavaScript truthiness),
false on length mismatch with the expected `sha256=<hex>` value, otherwise
a constant-time byte comparison, which succeeds exactly on equality. -/
def verifySignature (hmacHex : String → String → String) (payload : String)
    (signature secret : Option String) : Bool :=
  match signature, secret with
  | some sig, some sec =>
    if sig = "" then false
    else if sec = "" then false
    else
      let expected := "sha256=" ++ hmacHex sec payload
      if sig.length ≠ expected.length then false
      else sig == expected
  | _, _ => false

/-- The webhook options consumed by the batching logic of `createWebhook`
(src/webhooks.cjs): the optional `events` type allow-list, the urgent-only
flag, the batch window and the maximum batch size. -/
structure WebhookConfig where
  events : Option (List String)
  urgentOnly : Bool
  batchMs : Int
  maxBatchSize : Nat
deriving DecidableEq

/-- Mutable webhook dispatcher state: the pending `batch` in submission
order and whether a flush timer is currently armed (`batchTimer`). -/
structure WebhookState where
  batch : List Notification
  batchTimer : Bool
deriving DecidableEq

/-- An HTTP envelope produced by the dispatcher: either a single
`event: "notification"` payload or an `event: "batch"` payload carrying
`count` and the ordered notification sequence. -/
inductive Payload where
  | single (n : Notification)
  | batch (count : Nat) (notifications : List Notification)
deriving DecidableEq

/-- `flushBatch()` from src/webhooks.cjs: a no-op on an empty batch
(leaving even the timer untouched); otherwise `splice(0, maxBatchSize)`
takes the oldest `maxBatchSize` queued notifications, the timer is cleared
without being re-armed, and one batch envelope is produced whose `count` is
the length of its notification sequence. -/
def flushBatch (maxBatchSize : Nat) (st : WebhookState) :
    WebhookState × Option Payload :=
  if st.batch = [] then (st, none)
  else
    let toSend := st.batch.take maxBatchSize
    let rest := st.batch.drop maxBatchSize
    (⟨rest, false⟩, some (Payload.batch toSend.length toSend))

/-- `send(notification)` from src/webhooks.cjs: drop when the type
allow-list excludes the type; drop when urgent-only and priority is not
high; with a positive batch window, append to the batch and either flush
immediately (cap reached — the pending timer is cleared by the flush) or
arm the timer if none is armed; with batch window 0, emit a single
envelope immediately. -/
def send (cfg : WebhookConfig) (st : WebhookState) (n : Notification) :
    WebhookState × Option Payload :=
  if (match cfg.events with
      | some l => decide (n.type ∉ l)
      | none => false) = true then (st, none)
  else if cfg.urgentOnly ∧ n.priority ≠ "high" then (st, none)
  else if cfg.batchMs > 0 then
    let batch' := st.batch ++ [n]
    if batch'.length ≥ cfg.maxBatchSize then
      flushBatch cfg.maxBatchSize ⟨batch', false⟩
    else if st.batchTimer = false then (⟨batch', true⟩, none)
    else (⟨batch', st.batchTimer⟩, none)
  else (st, some (Payload.single n))

/-- `close()` from src/webhooks.cjs: cancel any pending timer, then flush
whatever remains. -/
def close (maxBatchSize : Nat) (st : WebhookState) : WebhookState × Option Payload :=
  let st' : WebhookState := ⟨st.batch, false⟩
  if st.batch ≠ [] then flushBatch maxBatchSize st' else (st', none)

/-- C1: for every kind in [5000,6000), `classifyEvent` returns type
`dvm_request`, priority `high`, `dvmKind` equal to the input kind; for every
kind in [6000,7000) it returns type `dvm_result`, priority `medium`,
`dvmKind` equal to kind − 1000. -/
theorem classify_dvm_ranges (e : RawEvent) (my : String) :
    (5000 ≤ e.kind ∧ e.kind < 6000 →
      classifyEvent e my = ⟨"dvm_request", "high", some e.kind⟩) ∧
    (6000 ≤ e.kind ∧ e.kind < 7000 →
      classifyEvent e my = ⟨"dvm_result", "medium", some (e.kind - 1000)⟩) := by
  constructor
  · rintro ⟨h1, h2⟩
    have hne : ¬ (e.kind = KINDS.DM_ENCRYPTED ∨ e.kind = KINDS.GIFT_WRAP) := by
      simp only [KINDS]
      omega
    simp [classifyEvent, hne, h1, h2]
  · rintro ⟨h1, h2⟩
    have hne : ¬ (e.kind = KINDS.DM_ENCRYPTED ∨ e.kind = KINDS.GIFT_WRAP) := by
      simp only [KINDS]
      omega
    have hr : ¬ (5000 ≤ e.kind ∧ e.kind < 6000) := by omega
    simp [classifyEvent, hne, hr, h1, h2]

/-- Witness for `classify_dvm_ranges` at kinds 5050 and 6050. -/
theorem classify_dvm_ranges_witness :
    classifyEvent ⟨"a", "q", 5050, 0, "", []⟩ "me" = ⟨"dvm_request", "high", some 5050⟩ ∧
    classifyEvent ⟨"b", "q", 6050, 0, "", []⟩ "me" = ⟨"dvm_result", "medium", some (6050 - 1000)⟩ := by
  constructor
  · exact (classify_dvm_ranges ⟨"a", "q", 5050, 0, "", []⟩ "me").1 (by decide)
  · exact (classify_dvm_ranges ⟨"b", "q", 6050, 0, "", []⟩ "me").2 (by decide)

/-- C2: `classifyEvent` is a total Lean function (so it never fails) that
reads only the event's kind and tags together with the watcher identity:
two calls agreeing on those inputs agree on the output; and every kind not
matched by an earlier rule of the classification table yields type
`unknown` with priority `low`. -/
theorem classify_total_deterministic (e₁ e₂ : RawEvent) (my : String) :
    (e₁.kind = e₂.kind → e₁.tags = e₂.tags → classifyEvent e₁ my = classifyEvent e₂ my) ∧
    (e₁.kind ∉ ([1, 4, 7, 950, 951, 952, 1059, 1111, 1985, 7000, 9735] : List Int) →
      ¬ (5000 ≤ e₁.kind ∧ e₁.kind < 7000) →
      classifyEvent e₁ my = ⟨"unknown", "low", none⟩) := by
  constructor
  · intro hk ht
    obtain ⟨i₁, p₁, k₁, c₁, s₁, t₁⟩ := e₁
    obtain ⟨i₂, p₂, k₂, c₂, s₂, t₂⟩ := e₂
    simp only at hk ht
    subst hk
    subst ht
    rfl
  · intro hmem hrange
    simp only [List.mem_cons, List.not_mem_nil, or_false, not_or] at hmem
    obtain ⟨n1, n4, n7, n950, n951, n952, n1059, n1111, n1985, n7000, n9735⟩ := hmem
    simp only [classifyEvent, KINDS]
    split_ifs <;> first | rfl | (exfalso; omega)

/-- Witness for `classify_total_deterministic`: two events differing only in
irrelevant fields classify identically, and an unmatched kind (2) yields
`unknown`/`low`. -/
theorem classify_total_deterministic_witness :
    classifyEvent ⟨"a", "q", 2, 0, "x", []⟩ "me" = classifyEvent ⟨"b", "r", 2, 9, "y", []⟩ "me" ∧
    classifyEvent ⟨"a", "q", 2, 0, "x", []⟩ "me" = ⟨"unknown", "low", none⟩ := by
  constructor
  · exact (classify_total_deterministic ⟨"a", "q", 2, 0, "x", []⟩ ⟨"b", "r", 2, 9, "y", []⟩ "me").1
      (by decide) (by decide)
  · exact (classify_total_deterministic ⟨"a", "q", 2, 0, "x", []⟩ ⟨"b", "r", 2, 9, "y", []⟩ "me").2
      (by decide) (by decide)

/-- C5: with every channel disabled `buildFilters` returns the empty list;
with only the mentions channel enabled it returns exactly one filter, whose
kind set is `[text-note, comment]` = `[1, 1111]` and whose `#p` constraint
is the watcher identity. -/
theorem buildFilters_disabled_and_mentions (pk : String) (w : Option Int) :
    buildFilters pk allDisabled w = [] ∧
    (buildFilters pk mentionsOnly w).map (fun f => (f.kinds, f.p)) =
      [([KINDS.TEXT_NOTE, KINDS.COMMENT], [pk])] := by
  constructor
  · simp [buildFilters, allDisabled]
  · simp [buildFilters, mentionsOnly]

/-- C6: when no explicit `dvmKinds` list is supplied, the filter built for
the DVM-requests channel uses the fixed curated `commonDvmKinds` list, which
has 23 entries — fewer than 30 and far from the full 1000-kind range. -/
theorem buildFilters_default_dvm_bounded (pk : String) (ch : Channels) (w : Option Int)
    (hreq : ch.dvmRequests = true) (hnone : ch.dvmKinds = none) :
    (∃ f ∈ buildFilters pk ch w, f.kinds = commonDvmKinds) ∧
    commonDvmKinds.length = 23 ∧ commonDvmKinds.length < 30 := by
  refine ⟨⟨⟨commonDvmKinds, [pk], none, sinceField w⟩, ?_, rfl⟩, by decide, by decide⟩
  simp only [buildFilters, List.mem_append]
  refine Or.inl (Or.inl (Or.inl (Or.inl (Or.inl (Or.inr ?_)))))
  simp [hreq, hnone]

/-- Witness for `buildFilters_default_dvm_bounded` at a concrete
configuration (all channels enabled, no explicit DVM kind list). -/
theorem buildFilters_default_dvm_bounded_witness :
    (∃ f ∈ buildFilters "pk" {} none, f.kinds = commonDvmKinds) ∧
    commonDvmKinds.length = 23 ∧ commonDvmKinds.length < 30 :=
  buildFilters_default_dvm_bounded "pk" {} none rfl rfl

/-- Every filter produced by `buildFilters` carries `sinceField w` as its
`since` field. -/
theorem buildFilters_since_eq (pk : String) (ch : Channels) (w : Option Int) :
    ∀ f ∈ buildFilters pk ch w, f.since = sinceField w := by
  simp only [buildFilters, List.forall_mem_append]
  repeat' apply And.intro
  all_goals split
  all_goals try split
  all_goals simp

/-- C7 counterexample: the watermark value 0 is non-null, yet — because the
source tests `since` for JavaScript truthiness — no produced filter carries
it as a `since` lower bound. -/
theorem buildFilters_since_zero_counterexample :
    ¬ (∀ f ∈ buildFilters "a" mentionsOnly (some 0), f.since = some 0) := by
  decide

/-- C7 (amended): for every watcher identity, channel configuration and
non-null, nonzero watermark, every filter returned by `buildFilters` carries
that watermark as its `since` lower bound; when the watermark is null, no
filter carries a `since` field. -/
theorem buildFilters_since_watermark (pk : String) (ch : Channels) (t : Int)
    (ht : t ≠ 0) :
    (∀ f ∈ buildFilters pk ch (some t), f.since = some t) ∧
    (∀ f ∈ buildFilters pk ch none, f.since = none) := by
  constructor
  · intro f hf
    have h := buildFilters_since_eq pk ch (some t) f hf
    simpa [sinceField, ht] using h
  · intro f hf
    have h := buildFilters_since_eq pk ch none f hf
    simpa [sinceField] using h

/-- Witness for `buildFilters_since_watermark` at watermark 5 with only the
mentions channel enabled. -/
theorem buildFilters_since_watermark_witness :
    QueryFilter.since ⟨[1, 1111], ["a"], none, some 5⟩ = some 5 ∧
    QueryFilter.since ⟨[1, 1111], ["a"], none, none⟩ = none := by
  constructor
  · exact (buildFilters_since_watermark "a" mentionsOnly 5 (by decide)).1
      ⟨[1, 1111], ["a"], none, some 5⟩ (by decide)
  · exact (buildFilters_since_watermark "a" mentionsOnly 5 (by decide)).2
      ⟨[1, 1111], ["a"], none, none⟩ (by decide)

/-- The classification type of an if-then-else is distinct from `x` when
both branches' types are. -/
theorem type_ne_of_ite {c : Prop} [Decidable c] {A B : Classification} {x : String}
    (ha : A.type ≠ x) (hb : B.type ≠ x) : (if c then A else B).type ≠ x := by
  split
  · exact ha
  · exact hb

/-- The classification type is never the reserved topic name
`notification`. -/
theorem classify_type_ne_notification (e : RawEvent) (my : String) :
    (classifyEvent e my).type ≠ "notification" := by
  rw [classifyEvent]
  repeat' apply type_ne_of_ite
  all_goals simp

/-- With no subscribers, every emission completes and no exception
escapes. -/
theorem emitSeq_no_subs (n : Notification) (ts : List String) :
    emitSeq (fun _ => []) n ts = (ts.map (fun t => (t, n)), true) := by
  induction ts with
  | nil => rfl
  | cons t ts ih => simp [emitSeq, ih]

/-- A freshly recorded id survives the (possible) batch eviction, because
eviction drops only the oldest 5000 of at least 10001 entries. -/
theorem mem_recordSeen (s : List String) (id : String) (h : id ∉ s) :
    id ∈ recordSeen s id := by
  unfold recordSeen
  simp only [h, if_false]
  split
  · rename_i hlen
    rw [List.length_append] at hlen
    rw [List.drop_append_of_le_length (by simp at hlen ⊢; omega)]
    exact List.mem_append_right _ (List.mem_singleton_self id)
  · exact List.mem_append_right _ (List.mem_singleton_self id)

/-- With dedup enabled, `handleEvent` on an already-seen id returns
immediately with no effect at all. -/
theorem handleEvent_seen (pk : String) (subs : String → List (Notification → Bool))
    (cb : Option (Notification → Bool)) (st : InboxState) (e : RawEvent)
    (h : e.id ∈ st.seen) :
    handleEvent true pk subs cb st e = ⟨st, [], false, true⟩ := by
  simp [handleEvent, h]

/-- With dedup enabled and a fresh id, the updated dedup window is
`recordSeen st.seen e.id`, regardless of subscribers and callback. -/
theorem handleEvent_fresh_seen (pk : String) (subs : String → List (Notification → Bool))
    (cb : Option (Notification → Bool)) (st : InboxState) (e : RawEvent)
    (h : e.id ∉ st.seen) :
    (handleEvent true pk subs cb st e).state.seen = recordSeen st.seen e.id := by
  simp only [handleEvent, true_and, h, if_false, if_true]
  split <;> split <;> rfl

/-- C3: with dedup enabled, `handleEvent` on a raw event whose id is
already in the dedup window has no side effects — nothing is published on
any topic, the user callback is not invoked, the watermark and the dedup
window are unchanged, and the call returns normally; consequently handling
the same raw event twice publishes on the `notification` topic exactly
once. -/
theorem handleEvent_dedup_drop (pk : String)
    (subs : String → List (Notification → Bool)) (cb : Option (Notification → Bool))
    (st : InboxState) (e : RawEvent) :
    (e.id ∈ st.seen → handleEvent true pk subs cb st e = ⟨st, [], false, true⟩) ∧
    (e.id ∉ st.seen →
      ((handleEvent true pk (fun _ => []) none st e).published ++
        (handleEvent true pk (fun _ => []) none
          (handleEvent true pk (fun _ => []) none st e).state e).published).countP
        (fun q => q.1 == "notification") = 1) := by
  constructor
  · intro h
    exact handleEvent_seen pk subs cb st e h
  · intro h
    have hmem : e.id ∈ (handleEvent true pk (fun _ => []) none st e).state.seen := by
      rw [handleEvent_fresh_seen pk (fun _ => []) none st e h]
      exact mem_recordSeen st.seen e.id h
    rw [handleEvent_seen pk (fun _ => []) none _ e hmem]
    have hpub : (handleEvent true pk (fun _ => []) none st e).published =
        (["notification", (classifyEvent e pk).type] ++
          (if (classifyEvent e pk).priority = "high" then ["urgent"] else [])).map
          (fun t => (t, ⟨e.id, (classifyEvent e pk).type, (classifyEvent e pk).priority,
            e.pubkey, e.content, e.kind, e.tags, e.created_at * 1000,
            (classifyEvent e pk).dvmKind⟩)) := by
      simp only [handleEvent, true_and, h, if_false, if_true, emitSeq_no_subs]
    rw [hpub]
    have hty := classify_type_ne_notification e pk
    simp only [List.append_nil, List.map_append, List.countP_append, List.countP_map]
    split
    · simp [List.countP_cons, hty]
    · simp [List.countP_cons, hty]

/-- Witness for `handleEvent_dedup_drop`: a seen id is dropped with no
effect, and a fresh event handled twice yields one `notification`
publication. -/
theorem handleEvent_dedup_drop_witness :
    handleEvent true "me" (fun _ => []) none ⟨["x"], 0⟩ ⟨"x", "q", 1, 5, "", []⟩ =
      ⟨⟨["x"], 0⟩, [], false, true⟩ ∧
    ((handleEvent true "me" (fun _ => []) none ⟨[], 0⟩ ⟨"y", "q", 1, 5, "", []⟩).published ++
      (handleEvent true "me" (fun _ => []) none
        (handleEvent true "me" (fun _ => []) none ⟨[], 0⟩ ⟨"y", "q", 1, 5, "", []⟩).state
        ⟨"y", "q", 1, 5, "", []⟩).published).countP
      (fun q => q.1 == "notification") = 1 := by
  constructor
  · exact (handleEvent_dedup_drop "me" (fun _ => []) none ⟨["x"], 0⟩ ⟨"x", "q", 1, 5, "", []⟩).1
      (by decide)
  · exact (handleEvent_dedup_drop "me" (fun _ => []) none ⟨[], 0⟩ ⟨"y", "q", 1, 5, "", []⟩).2
      (by decide)

/-- The dedup window after one `handleEvent` call evolves by `seenStep`. -/
theorem handleEvent_state_seen (pk : String)
    (subs : String → List (Notification → Bool)) (cb : Option (Notification → Bool))
    (st : InboxState) (e : RawEvent) :
    (handleEvent true pk subs cb st e).state.seen = seenStep st.seen e.id := by
  by_cases h : e.id ∈ st.seen
  · rw [handleEvent_seen pk subs cb st e h]
    simp [seenStep, h]
  · rw [handleEvent_fresh_seen pk subs cb st e h]
    simp [seenStep, h]

/-- Over a whole event stream, the dedup window is the fold of `seenStep`
over the event ids. -/
theorem runInbox_seen (pk : String) (st : InboxState) (events : List RawEvent) :
    (runInbox true pk st events).seen =
      events.foldl (fun s e => seenStep s e.id) st.seen := by
  induction events generalizing st with
  | nil => rfl
  | cons e es ih =>
    simp only [runInbox, List.foldl_cons] at *
    rw [ih, handleEvent_state_seen]

/-- While the window stays at or below the 10000-entry cap, recording
pairwise-fresh ids appends them in insertion order with no eviction. -/
theorem foldl_seenStep_fresh (ids : List String) :
    ∀ s : List String, ids.Nodup → (∀ i ∈ ids, i ∉ s) →
      s.length + ids.length ≤ 10000 → List.foldl seenStep s ids = s ++ ids := by
  induction ids with
  | nil => intro s _ _ _; simp
  | cons id ids ih =>
    intro s hnd hfresh hlen
    have hid : id ∉ s := hfresh id (List.mem_cons_self id ids)
    have hstep : seenStep s id = s ++ [id] := by
      unfold seenStep recordSeen
      simp only [hid, if_false]
      rw [if_neg]
      simp only [List.length_append, List.length_singleton, gt_iff_lt, not_lt]
      simp only [List.length_cons] at hlen
      omega
    rw [List.foldl_cons, hstep, ih (s ++ [id]) hnd.of_cons ?_ ?_]
    · rw [List.append_assoc, List.singleton_append]
    · intro i hi
      simp only [List.mem_append, List.mem_singleton, not_or]
      refine ⟨fun hmem => hfresh i (List.mem_cons_of_mem _ hi) hmem, ?_⟩
      intro heq
      exact (List.nodup_cons.mp hnd).1 (heq ▸ hi)
    · simp only [List.length_append, List.length_singleton, List.length_cons,
        List.length_nil] at hlen ⊢
      omega

/-- C4: starting from an empty dedup window, handling 10001 raw events with
pairwise-distinct ids leaves the window equal to the last 5001 ids in
insertion order (the oldest 5000 were evicted in one batch): strictly
between 5000 and 10001 entries, still containing the most recently
inserted id; and any run of at most 10000 distinct ids performs no
eviction at all. -/
theorem dedup_window_eviction (pk : String) (ts : Int) (events events₂ : List RawEvent)
    (h1 : events.length = 10001) (h2 : (events.map RawEvent.id).Nodup)
    (h3 : events₂.length ≤ 10000) (h4 : (events₂.map RawEvent.id).Nodup) :
    (runInbox true pk ⟨[], ts⟩ events).seen = (events.map RawEvent.id).drop 5000 ∧
    (runInbox true pk ⟨[], ts⟩ events).seen.length = 5001 ∧
    5000 < (runInbox true pk ⟨[], ts⟩ events).seen.length ∧
    (runInbox true pk ⟨[], ts⟩ events).seen.length < 10001 ∧
    (∀ x ∈ (events.map RawEvent.id).drop 10000, x ∈ (runInbox true pk ⟨[], ts⟩ events).seen) ∧
    (runInbox true pk ⟨[], ts⟩ events₂).seen = events₂.map RawEvent.id := by
  have hrun : ∀ evs : List RawEvent, (runInbox true pk ⟨[], ts⟩ evs).seen =
      List.foldl seenStep [] (evs.map RawEvent.id) := by
    intro evs
    rw [runInbox_seen, List.foldl_map]
  have hlen : (events.map RawEvent.id).length = 10001 := by
    rw [List.length_map, h1]
  obtain ⟨x, hx⟩ : ∃ x, (events.map RawEvent.id).drop 10000 = [x] := by
    apply List.length_eq_one.mp
    rw [List.length_drop, hlen]
  have hsplit : events.map RawEvent.id = (events.map RawEvent.id).take 10000 ++ [x] := by
    rw [← hx, List.take_append_drop]
  have htake_len : ((events.map RawEvent.id).take 10000).length = 10000 := by
    rw [List.length_take, hlen]
    omega
  have hnd_take : ((events.map RawEvent.id).take 10000).Nodup :=
    h2.sublist (List.take_sublist _ _)
  have htake : List.foldl seenStep [] ((events.map RawEvent.id).take 10000) =
      (events.map RawEvent.id).take 10000 := by
    have h := foldl_seenStep_fresh ((events.map RawEvent.id).take 10000) [] hnd_take
      (by simp) (by rw [htake_len]; simp)
    simpa using h
  have hxmem : x ∉ (events.map RawEvent.id).take 10000 := by
    have hnd2 : ((events.map RawEvent.id).take 10000 ++ [x]).Nodup := hsplit ▸ h2
    intro hmem
    exact List.disjoint_of_nodup_append hnd2 hmem (List.mem_singleton_self x)
  have hdrop_eq : (events.map RawEvent.id).drop 5000 =
      ((events.map RawEvent.id).take 10000).drop 5000 ++ [x] := by
    conv_lhs => rw [hsplit]
    rw [List.drop_append_of_le_length (by rw [htake_len]; omega)]
  have hfinal : List.foldl seenStep [] (events.map RawEvent.id) =
      (events.map RawEvent.id).drop 5000 := by
    conv_lhs => rw [hsplit]
    rw [List.foldl_append, htake, List.foldl_cons, List.foldl_nil]
    unfold seenStep recordSeen
    simp only [hxmem, if_false]
    rw [if_pos (by rw [List.length_append, htake_len]; simp)]
    rw [List.drop_append_of_le_length (by rw [htake_len]; omega)]
    rw [hdrop_eq]
  have hseen : (runInbox true pk ⟨[], ts⟩ events).seen =
      (events.map RawEvent.id).drop 5000 := by rw [hrun, hfinal]
  have hlen5001 : (runInbox true pk ⟨[], ts⟩ events).seen.length = 5001 := by
    rw [hseen, List.length_drop, hlen]
  refine ⟨hseen, hlen5001, by omega, by omega, ?_, ?_⟩
  · intro y hy
    rw [hx] at hy
    rw [hseen, hdrop_eq]
    exact List.mem_append_right _ hy
  · rw [hrun]
    have h := foldl_seenStep_fresh (events₂.map RawEvent.id) [] h4 (by simp)
      (by rw [List.length_map]; simpa using h3)
    simpa using h

/-- `mkId` is injective: distinct indices give strings of distinct length. -/
theorem mkId_injective : Function.Injective mkId := by
  intro m n h
  have hd : List.replicate m 'a' = List.replicate n 'a' := congrArg String.data h
  have hl := congrArg List.length hd
  simpa using hl

/-- The ids of `evsW` are pairwise distinct. -/
theorem evsW_ids_nodup : (evsW.map RawEvent.id).Nodup := by
  have hmap : evsW.map RawEvent.id = (List.range 10001).map mkId := by
    simp only [evsW, List.map_map]
    rfl
  rw [hmap]
  exact List.Nodup.map mkId_injective (List.nodup_range 10001)

/-- Witness for `dedup_window_eviction` on the concrete 10001-event stream
`evsW
` (and the empty stream for the no-eviction part). -/
theorem dedup_window_eviction_witness :
    (runInbox true "p" ⟨[], 0⟩ evsW).seen = (evsW.map RawEvent.id).drop 5000 ∧
    (runInbox true "p" ⟨[], 0⟩ evsW).seen.length = 5001 := by
  have h := dedup_window_eviction "p" 0 evsW []
    (by simp [evsW]) evsW_ids_nodup (by simp) (by simp)
  exact ⟨h.1, h.2.1⟩

/-- C9 (amended): an exception from the user-supplied `onEvent` callback is
fully contained — for any two callbacks (throwing or not, present or not)
the resulting state, completed publications and normal completion are
identical; and the state update (watermark and dedup window) is applied
before fan-out, so it is also independent of any subscriber behaviour,
throwing or not. (A throwing topic subscriber, however, aborts the
remaining topic publications — see the counterexample.) -/
theorem callback_error_contained (dedup : Bool) (pk : String)
    (subs subs' : String → List (Notification → Bool))
    (cb cb' : Option (Notification → Bool)) (st : InboxState) (e : RawEvent) :
    (handleEvent dedup pk subs cb st e).state = (handleEvent dedup pk subs' cb' st e).state ∧
    (handleEvent dedup pk subs cb st e).published =
      (handleEvent dedup pk subs cb' st e).published ∧
    (handleEvent dedup pk subs cb st e).ok = (handleEvent dedup pk subs cb' st e).ok := by
  refine ⟨?_, ?_, ?_⟩ <;>
    (simp only [handleEvent]
     repeat' split
     all_goals rfl)

/-- C9 counterexample: a subscriber on the `notification` topic that throws
prevents the notification from being published to the per-type (`dm`) and
`urgent` topics, skips the `onEvent` callback, and the exception escapes
from `handleEvent` — while the dedup window and watermark are still
updated. The claim that a subscriber exception cannot prevent publication
to the remaining topics is therefore false. -/
theorem subscriber_error_aborts_counterexample :
    (handleEvent true "me" (fun t => if t = "notification" then [fun _ => false] else [])
      none ⟨[], 0⟩ ⟨"i", "q", 4, 7, "hi", []⟩).published = [] ∧
    (handleEvent true "me" (fun t => if t = "notification" then [fun _ => false] else [])
      none ⟨[], 0⟩ ⟨"i", "q", 4, 7, "hi", []⟩).ok = false ∧
    (handleEvent true "me" (fun t => if t = "notification" then [fun _ => false] else [])
      none ⟨[], 0⟩ ⟨"i", "q", 4, 7, "hi", []⟩).state = ⟨["i"], 7⟩ :=
  ⟨rfl, rfl, rfl⟩

/-- Appending to a string literal beginning `sha256=` never yields the
empty string. -/
theorem sha256_prefix_ne_empty (x : String) : "sha256=" ++ x ≠ "" := by
  intro h
  have hd := congrArg String.data h
  rw [String.data_append] at hd
  simp at hd

/-- C8: the signature round trip — for every payload body, every hex-digest
function and every non-empty secret, verifying the header value
`sha256=` ++ digest succeeds; verification fails whenever the signature or
the secret is absent or empty, and whenever the supplied signature's
length differs from the expected value's length. -/
theorem verifySignature_roundtrip (hmacHex : String → String → String)
    (body sec : String) (hsec : sec ≠ "") :
    verifySignature hmacHex body (some ("sha256=" ++ hmacHex sec body)) (some sec) = true ∧
    (∀ sig : Option String, verifySignature hmacHex body sig none = false) ∧
    (∀ sig : Option String, verifySignature hmacHex body sig (some "") = false) ∧
    (∀ s : Option String, verifySignature hmacHex body none s = false) ∧
    (∀ s : Option String, verifySignature hmacHex body (some "") s = false) ∧
    (∀ sig : String, sig ≠ "" →
      sig.length ≠ ("sha256=" ++ hmacHex sec body).length →
      verifySignature hmacHex body (some sig) (some sec) = false) := by
  refine ⟨?_, ?_, ?_, ?_, ?_, ?_⟩
  · simp only [verifySignature]
    rw [if_neg (sha256_prefix_ne_empty (hmacHex sec body)), if_neg hsec, if_neg (by simp)]
    simp
  · intro sig
    cases sig <;> rfl
  · intro sig
    cases sig with
    | none => rfl
    | some s => simp [verifySignature]
  · intro s
    cases s <;> rfl
  · intro s
    cases s with
    | none => rfl
    | some s' => simp [verifySignature]
  · intro sig hsig hlen
    simp only [verifySignature]
    rw [if_neg hsig, if_neg hsec, if_pos hlen]

/-- Witness for `verifySignature_roundtrip` with digest function
concatenation, body `b`, secret `k`. -/
theorem verifySignature_roundtrip_witness :
    verifySignature (fun s p => s ++ p) "b" (some ("sha256=" ++ ("k" ++ "b"))) (some "k")
      = true ∧
    verifySignature (fun s p => s ++ p) "b" (some "x") none = false ∧
    verifySignature (fun s p => s ++ p) "b" (some "x") (some "") = false ∧
    verifySignature (fun s p => s ++ p) "b" none (some "k") = false ∧
    verifySignature (fun s p => s ++ p) "b" (some "") (some "k") = false ∧
    verifySignature (fun s p => s ++ p) "b" (some "zz") (some "k") = false := by
  have h := verifySignature_roundtrip (fun s p => s ++ p) "b" "k" (by decide)
  exact ⟨h.1, h.2.1 (some "x"), h.2.2.1 (some "x"), h.2.2.2.1 (some "k"),
    h.2.2.2.2.1 (some "k"), h.2.2.2.2.2 "zz" (by decide) (by decide)⟩

/-- C10: a flushed batch envelope carries at most `maxBatchSize`
notifications, its `count` equals the length of its notification sequence,
and the sent prefix followed by the remaining queue is exactly the original
queue in submission order; when more than `maxBatchSize` notifications are
queued, only the first `maxBatchSize` are sent, the remainder stays queued,
and the flush timer is cleared without being re-armed. The batch itself is
built in submission order: a filtered-in `send` under the cap appends the
notification at the end of the queue. -/
theorem flushBatch_bounded_ordered (maxB : Nat) (st : WebhookState)
    (cfg : WebhookConfig) (n : Notification)
    (hne : st.batch ≠ [])
    (hpass : (match cfg.events with
      | some l => n.type ∈ l
      | none => True))
    (hurg : cfg.urgentOnly = true → n.priority = "high")
    (hms : cfg.batchMs > 0)
    (hcap : st.batch.length + 1 < cfg.maxBatchSize) :
    flushBatch maxB st =
      (⟨st.batch.drop maxB, false⟩,
       some (Payload.batch (st.batch.take maxB).length (st.batch.take maxB))) ∧
    (st.batch.take maxB).length ≤ maxB ∧
    st.batch.take maxB ++ st.batch.drop maxB = st.batch ∧
    send cfg st n = (⟨st.batch ++ [n], true⟩, none) := by
  refine ⟨?_, ?_, ?_, ?_⟩
  · simp [flushBatch, hne]
  · exact List.length_take_le maxB st.batch
  · exact List.take_append_drop maxB st.batch
  · have h1 : (match cfg.events with
        | some l => decide (n.type ∉ l)
        | none => false) = false := by
      cases hev : cfg.events with
      | none => rfl
      | some l =>
        rw [hev] at hpass
        simpa using hpass
    have h2 : ¬ (cfg.urgentOnly = true ∧ n.priority ≠ "high") := by
      rintro ⟨hu, hp⟩
      exact hp (hurg hu)
    have h3 : ¬ ((st.batch ++ [n]).length ≥ cfg.maxBatchSize) := by
      simp only [List.length_append, List.length_singleton]
      omega
    simp only [send, h1, Bool.false_eq_true, if_false, if_neg h2, if_pos hms, if_neg h3]
    cases hbt : st.batchTimer <;> simp

/-- Witness for `flushBatch_bounded_ordered` at a concrete one-element
queue with cap 2 and a concrete passing notification. -/
theorem flushBatch_bounded_ordered_witness :
    flushBatch 2 ⟨[⟨"a", "mention", "medium", "q", "", 1, [], 0, none⟩], true⟩ =
      (⟨([⟨"a", "mention", "medium", "q", "", 1, [], 0, none⟩] :
          List Notification).drop 2, false⟩,
       some (Payload.batch
        (([⟨"a", "mention", "medium", "q", "", 1, [], 0, none⟩] :
          List Notification).take 2).length
        (([⟨"a", "mention", "medium", "q", "", 1, [], 0, none⟩] :
          List Notification).take 2))) ∧
    (([⟨"a", "mention", "medium", "q", "", 1, [], 0, none⟩] :
      List Notification).take 2).length ≤ 2 ∧
    ([⟨"a", "mention", "medium", "q", "", 1, [], 0, none⟩] :
      List Notification).take 2 ++
      ([⟨"a", "mention", "medium", "q", "", 1, [], 0, none⟩] :
        List Notification).drop 2 =
      [⟨"a", "mention", "medium", "q", "", 1, [], 0, none⟩] ∧
    send ⟨some ["mention"], false, 5, 10⟩
      ⟨[⟨"a", "mention", "medium", "q", "", 1, [], 0, none⟩], true⟩
      ⟨"b", "mention", "medium", "q", "", 1, [], 0, none⟩ =
      (⟨[⟨"a", "mention", "medium", "q", "", 1, [], 0, none⟩] ++
        [⟨"b", "mention", "medium", "q", "", 1, [], 0, none⟩], true⟩, none) :=
  flushBatch_bounded_ordered 2 ⟨[⟨"a", "mention", "medium", "q", "", 1, [], 0, none⟩], true⟩
    ⟨some ["mention"], false, 5, 10⟩ ⟨"b", "mention", "medium", "q", "", 1, [], 0, none⟩
    (by decide) (by decide) (by decide) (by decide) (by decide)
